import Mathlib

/-
Shallow embedding of the dapp repository (src/config.rs, src/path.rs):
a layered first-write-wins configuration merge engine and a path-validity
utility. External collaborators (the serde decoder adapters, the
filesystem, the permission queries) are modelled as explicit function
parameters, following the spec treating them as opaque boundaries.
-/

namespace Dapp

/-- Filesystem paths, modelled as their list of components (outermost
component first). `parent` drops the last component and returns `none`
on the empty path, mirroring `std::path::Path::parent`. -/
abbrev RustPath := List String

/-- The `Error` enum of src/config.rs (the `source` payloads, which in
Rust are `std::io::Error` or `Box<dyn std::error::Error>`, are modelled
as their message strings). -/
inductive Error where
  | FindConfigFile (path : RustPath)
  | FindOptionalConfigFile (optional_path : Option RustPath)
  | ReadConfigFile (path : RustPath) (source : String)
  | ReadOptionalConfigFile (optional_path : Option RustPath) (source : String)
  | ParseConfigFile (path : RustPath) (source : String)
  | ParseConfigString (string : String) (source : String)
deriving DecidableEq

/-- The filesystem boundary used by the `filepath` family of methods:
an existence test and a file-open returning either the file contents
or an I/O error message. -/
structure FileSystem where
  pathExists : RustPath → Bool
  openFile : RustPath → Except String String

/-- The primitive operations a `Configuration` implementor must supply
(`config`, `set_loaded`, `is_loaded`, and `Default::default`); the
derived trait methods below are defined only in terms of these,
mirroring the trait default-method bodies of src/config.rs. -/
structure ConfigOps (C : Type) where
  config : C → C → C
  set_loaded : C → C
  is_loaded : C → Bool
  dflt : C

/-- The trait default method `Configuration::string`: decode the text
via the bound decoder adapter; on failure, return a `ParseConfigString`
error whose `source` is the placeholder produced by
`Box::from("Hello")` in the code (the real serde error is discarded
there); on success, `config` the fragment in and `set_loaded`.
The result pairs the receiver state after the call with the
`Result<_, Error>` outcome. -/
def string (ops : ConfigOps C) (decode : String → Except String C)
    (self : C) (config_string : String) : C × Except Error Unit :=
  match decode config_string with
  | .error _serde_error =>
      (self, .error (.ParseConfigString config_string "Hello"))
  | .ok other_config =>
      (ops.set_loaded (ops.config self other_config), .ok ())

/-- The trait default method `Configuration::filepath`: silently skip
when the path does not exist; `ReadConfigFile` when the file cannot be
opened; `ParseConfigFile` (with the same placeholder source as
`string`) when decoding fails; otherwise merge and mark loaded. -/
def filepath (fs : FileSystem) (ops : ConfigOps C)
    (decode : String → Except String C)
    (self : C) (config_filepath : RustPath) : C × Except Error Unit :=
  if !fs.pathExists config_filepath then
    (self, .ok ())
  else
    match fs.openFile config_filepath with
    | .error io_error =>
        (self, .error (.ReadConfigFile config_filepath io_error))
    | .ok contents =>
        match decode contents with
        | .error _serde_error =>
            (self, .error (.ParseConfigFile config_filepath "Hello"))
        | .ok other_config =>
            (ops.set_loaded (ops.config self other_config), .ok ())

/-- The trait default method `Configuration::optional_filepath`:
no-op on `None`, else `filepath`. -/
def optional_filepath (fs : FileSystem) (ops : ConfigOps C)
    (decode : String → Except String C)
    (self : C) (optional_config_filepath : Option RustPath) :
    C × Except Error Unit :=
  match optional_config_filepath with
  | some config_filepath => filepath fs ops decode self config_filepath
  | none => (self, .ok ())

/-- The trait default method `Configuration::try_filepath`: like
`filepath`, but a nonexistent path is a hard `FindConfigFile` error
carrying the path. -/
def try_filepath (fs : FileSystem) (ops : ConfigOps C)
    (decode : String → Except String C)
    (self : C) (config_filepath : RustPath) : C × Except Error Unit :=
  if !fs.pathExists config_filepath then
    (self, .error (.FindConfigFile config_filepath))
  else
    filepath fs ops decode self config_filepath

/-- The trait default method `Configuration::try_optional_filepath`:
`try_filepath` on `Some`, and a `FindOptionalConfigFile` error on
`None`. -/
def try_optional_filepath (fs : FileSystem) (ops : ConfigOps C)
    (decode : String → Except String C)
    (self : C) (optional_config_filepath : Option RustPath) :
    C × Except Error Unit :=
  match optional_config_filepath with
  | some config_filepath => try_filepath fs ops decode self config_filepath
  | none => (self, .error (.FindOptionalConfigFile none))

/-- The trait default method `Configuration::optional_config`:
no-op on `None`, else `config`. -/
def optional_config (ops : ConfigOps C) (self : C)
    (optional_other : Option C) : C :=
  match optional_other with
  | some other => ops.config self other
  | none => self

/-- The trait default method `Configuration::ensure_loaded`: replace
the whole value with the default when `is_loaded` is false, else leave
it untouched. -/
def ensure_loaded (ops : ConfigOps C) (self : C) : C :=
  if ops.is_loaded self then self else ops.dflt

/-- The `TestConfig` struct from the tests of src/config.rs: two
optional assignable fields plus the hidden loaded flag. -/
structure TestConfig where
  my_bool : Option Bool
  my_string : Option String
  _loaded : Bool
deriving DecidableEq

/-- `Default::default()` for `TestConfig`. -/
def TestConfig.default : TestConfig :=
  { my_bool := none, my_string := none, _loaded := false }

/-- `TestConfig::new`. -/
def TestConfig.new : TestConfig :=
  { my_bool := none, my_string := none, _loaded := false }

/-- `TestConfig::set_loaded`. -/
def TestConfig.set_loaded (self : TestConfig) : TestConfig :=
  { self with _loaded := true }

/-- `TestConfig::is_loaded`. -/
def TestConfig.is_loaded (self : TestConfig) : Bool :=
  self._loaded

/-- `TestConfig::config`: per-field `self.field.take().or(other.field)`,
i.e. keep the receiver field when set and adopt the fragment field
otherwise, then `set_loaded`. -/
def TestConfig.config (self other : TestConfig) : TestConfig :=
  TestConfig.set_loaded
    { self with
      my_bool := self.my_bool.or other.my_bool,
      my_string := self.my_string.or other.my_string }

/-- The bundle of `TestConfig` primitives, as supplied to the trait
default methods. -/
def TestConfig.ops : ConfigOps TestConfig :=
  { config := TestConfig.config
    set_loaded := TestConfig.set_loaded
    is_loaded := TestConfig.is_loaded
    dflt := TestConfig.default }

/-- `std::path::Path::parent`, on the component-list model: drop the
last component, `none` on the empty path. -/
def parent : RustPath → Option RustPath
  | [] => none
  | p => some p.dropLast

/-- `ValidPath::largest_valid_subset` for path-like values
(src/path.rs): walk up through successive parents until one exists
(per the filesystem predicate `ex`), returning `none` when even the
outermost ancestor is absent. -/
def largest_valid_subset (ex : RustPath → Bool) (p : RustPath) :
    Option RustPath :=
  if ex p then some p
  else
    match p with
    | [] => none
    | a :: as => largest_valid_subset ex ((a :: as).dropLast)
termination_by p.length
decreasing_by
  simp [List.length_dropLast]

/-- `ValidPath::is_creatable` for path-like values: the path is
creatable iff its largest valid subset exists and is writable (per the
permission predicate `w`). -/
def is_creatable (ex w : RustPath → Bool) (p : RustPath) : Bool :=
  match largest_valid_subset ex p with
  | some q => w q
  | none => false

/- The `impl ValidPath for Option<P>` block of src/path.rs: every
predicate is false on `None`, and `largest_valid_subset` is `none` on
`None`; on `Some p` each method delegates to the path-like impl (whose
`exists`, `is_readable`, `is_writable`, `is_executable` delegate to
the filesystem and permission boundaries `ex`, `r`, `w`, `x`). -/
namespace OptPath

def exists_ (ex : RustPath → Bool) : Option RustPath → Bool
  | some p => ex p
  | none => false

def is_readable (r : RustPath → Bool) : Option RustPath → Bool
  | some p => r p
  | none => false

def is_writable (w : RustPath → Bool) : Option RustPath → Bool
  | some p => w p
  | none => false

def is_executable (x : RustPath → Bool) : Option RustPath → Bool
  | some p => x p
  | none => false

def is_creatable (ex w : RustPath → Bool) : Option RustPath → Bool
  | some p => Dapp.is_creatable ex w p
  | none => false

def largest_valid_subset (ex : RustPath → Bool) :
    Option RustPath → Option RustPath
  | some p => Dapp.largest_valid_subset ex p
  | none => none

end OptPath

/-- One merge call in a chained sequence: `config` with a fragment, or
`string` / `filepath` with their own decoder adapter (formats are
swappable per call) and, for `filepath`, a filesystem. -/
inductive MergeCall where
  | config (other : TestConfig)
  | string (decode : String → Except String TestConfig) (text : String)
  | filepath (fs : FileSystem)
      (decode : String → Except String TestConfig) (p : RustPath)

/-- The state of the receiver after one merge call (the `Result` value
is dropped: chained callers keep merging on the same receiver). -/
def applyCall (self : TestConfig) : MergeCall → TestConfig
  | .config other => self.config other
  | .string decode text => (Dapp.string TestConfig.ops decode self text).1
  | .filepath fs decode p =>
      (Dapp.filepath fs TestConfig.ops decode self p).1

/-- Running a whole sequence of merge calls on a receiver. -/
def runCalls (self : TestConfig) (calls : List MergeCall) : TestConfig :=
  calls.foldl applyCall self

/-- Fragment A of the priority-ordering scenario: field x = 1. -/
def fragmentA : TestConfig :=
  { my_bool := none, my_string := some "1", _loaded := false }

/-- Fragment B of the priority-ordering scenario: field x = 2. -/
def fragmentB : TestConfig :=
  { my_bool := none, my_string := some "2", _loaded := false }

/-- A filesystem on which no path exists. -/
def emptyFS : FileSystem :=
  { pathExists := fun _ => false
    openFile := fun _ => .error "no such file" }

/-- A decoder adapter instance that rejects every input, reporting the
offending text in its error. -/
def failingDecoder : String → Except String TestConfig :=
  fun s => .error ("unexpected token in: " ++ s)

end Dapp

namespace Dapp

/-- C2: the claim says the `ParseError` carries the underlying decoder
error; in the code the `map_err` closure of `string` discards the serde
error and stores `Box::from("Hello")` instead (the real propagation is
commented out), so the error carries the original text but a
placeholder source. Evaluated here at a failing input: the decoder
reports "unexpected token in: ::bad", yet the source of the returned error
is the placeholder "Hello". -/
theorem string_substitutes_placeholder_error :
    Dapp.string TestConfig.ops failingDecoder TestConfig.new "::bad" =
      (TestConfig.new, .error (.ParseConfigString "::bad" "Hello")) ∧
    failingDecoder "::bad" = .error "unexpected token in: ::bad" ∧
    "Hello" ≠ "unexpected token in: ::bad" := by
  refine ⟨rfl, rfl, by decide⟩

/-- C3: atomicity on decode failure. Whenever the decoder fails on the
input text, `string` returns a `ParseConfigString` error and the
receiver is returned exactly as it was: no field and not the loaded
flag is changed. -/
theorem string_decode_failure_atomic {C : Type} (ops : ConfigOps C)
    (decode : String → Except String C) (self : C) (text : String)
    (e : String) (h : decode text = .error e) :
    Dapp.string ops decode self text =
      (self, .error (.ParseConfigString text "Hello")) := by
  simp [Dapp.string, h]

/-- Witness for C3: a concrete malformed input on the failing decoder
leaves a concrete receiver untouched. -/
theorem string_decode_failure_atomic_witness :
    failingDecoder "::bad2" = .error "unexpected token in: ::bad2" ∧
    Dapp.string TestConfig.ops failingDecoder fragmentA "::bad2" =
      (fragmentA, .error (.ParseConfigString "::bad2" "Hello")) :=
  ⟨rfl,
   string_decode_failure_atomic TestConfig.ops failingDecoder fragmentA
     "::bad2" "unexpected token in: ::bad2" rfl⟩

/-- C4: for every path that does not exist, `filepath` succeeds as a
no-op: the receiver (fields and loaded flag) is returned unchanged with
an `Ok` outcome. -/
theorem filepath_absent_silent_skip {C : Type} (fs : FileSystem)
    (ops : ConfigOps C) (decode : String → Except String C) (self : C)
    (p : RustPath) (h : fs.pathExists p = false) :
    Dapp.filepath fs ops decode self p = (self, .ok ()) := by
  simp [Dapp.filepath, h]

/-- Witness for C4: on the empty filesystem, `filepath` on a concrete
path leaves a concrete receiver untouched and succeeds. -/
theorem filepath_absent_silent_skip_witness :
    emptyFS.pathExists ["etc", "app.yaml"] = false ∧
    Dapp.filepath emptyFS TestConfig.ops failingDecoder TestConfig.new
      ["etc", "app.yaml"] = (TestConfig.new, .ok ()) :=
  ⟨rfl,
   filepath_absent_silent_skip emptyFS TestConfig.ops failingDecoder
     TestConfig.new ["etc", "app.yaml"] rfl⟩

/-- C5: for every path that does not exist, `try_filepath` fails with
a `FindConfigFile` error carrying exactly the path that was passed in,
and the receiver is unchanged. -/
theorem try_filepath_absent_hard_fail {C : Type} (fs : FileSystem)
    (ops : ConfigOps C) (decode : String → Except String C) (self : C)
    (p : RustPath) (h : fs.pathExists p = false) :
    Dapp.try_filepath fs ops decode self p =
      (self, .error (.FindConfigFile p)) := by
  simp [Dapp.try_filepath, h]

/-- Witness for C5: on the empty filesystem, `try_filepath` on a
concrete path fails with `FindConfigFile` carrying that path. -/
theorem try_filepath_absent_hard_fail_witness :
    emptyFS.pathExists ["etc", "app.yaml"] = false ∧
    Dapp.try_filepath emptyFS TestConfig.ops failingDecoder
      TestConfig.new ["etc", "app.yaml"] =
      (TestConfig.new, .error (.FindConfigFile ["etc", "app.yaml"])) :=
  ⟨rfl,
   try_filepath_absent_hard_fail emptyFS TestConfig.ops failingDecoder
     TestConfig.new ["etc", "app.yaml"] rfl⟩

/-- C6: `try_optional_filepath` on `None` fails with a
`FindOptionalConfigFile` error (never a trivial success), while the
non-try `optional_filepath` on `None` is a successful no-op — for
every filesystem, decoder and receiver. -/
theorem try_optional_filepath_none_asymmetry {C : Type}
    (fs : FileSystem) (ops : ConfigOps C)
    (decode : String → Except String C) (self : C) :
    Dapp.try_optional_filepath fs ops decode self none =
      (self, .error (.FindOptionalConfigFile none)) ∧
    Dapp.optional_filepath fs ops decode self none = (self, .ok ()) :=
  ⟨rfl, rfl⟩

/-- C7: the `ensure_loaded` gate. When `is_loaded` is false the whole
value is replaced by the default of the type; when `is_loaded` is true the
value is returned completely unchanged. -/
theorem ensure_loaded_gate {C : Type} (ops : ConfigOps C) (self : C) :
    (ops.is_loaded self = false → ensure_loaded ops self = ops.dflt) ∧
    (ops.is_loaded self = true → ensure_loaded ops self = self) := by
  constructor <;> intro h <;> simp [ensure_loaded, h]

/-- Witness for C7: a fresh `TestConfig` is not loaded and
`ensure_loaded` replaces it with the default; a loaded one is kept. -/
theorem ensure_loaded_gate_witness :
    TestConfig.ops.is_loaded TestConfig.new = false ∧
    ensure_loaded TestConfig.ops TestConfig.new = TestConfig.ops.dflt ∧
    TestConfig.ops.is_loaded (fragmentA.set_loaded) = true ∧
    ensure_loaded TestConfig.ops (fragmentA.set_loaded) =
      fragmentA.set_loaded :=
  ⟨rfl,
   (ensure_loaded_gate TestConfig.ops TestConfig.new).1 rfl,
   rfl,
   (ensure_loaded_gate TestConfig.ops (fragmentA.set_loaded)).2 rfl⟩

/-- C10: `ensure_loaded` is idempotent — applying it twice yields the
same value as applying it once, for every configuration value (both
when the value was loaded and when the default gets installed). -/
theorem ensure_loaded_idempotent {C : Type} (ops : ConfigOps C)
    (self : C) :
    ensure_loaded ops (ensure_loaded ops self) =
      ensure_loaded ops self := by
  by_cases h : ops.is_loaded self = true
  · simp [ensure_loaded, h]
  · simp only [Bool.not_eq_true] at h
    by_cases h2 : ops.is_loaded ops.dflt = true <;>
      simp [ensure_loaded, h, h2]

/-- Helper: when no prefix of the path (the path itself or any of its
ancestors, down to the empty path) exists, the walk up through parents
finds nothing, bounded induction on the path length. -/
lemma largest_valid_subset_eq_none_aux (ex : RustPath → Bool) :
    ∀ (n : Nat) (p : RustPath), p.length ≤ n →
      (∀ q, q <+: p → ex q = false) →
      largest_valid_subset ex p = none := by
  intro n
  induction n with
  | zero =>
      intro p hp h
      have hp0 : p = [] := List.length_eq_zero.mp (Nat.le_zero.mp hp)
      subst hp0
      rw [largest_valid_subset.eq_def]
      simp [h [] (List.prefix_refl [])]
  | succ n ih =>
      intro p hp h
      have hex : ex p = false := h p (List.prefix_refl p)
      rw [largest_valid_subset.eq_def]
      cases p with
      | nil => simp [hex]
      | cons a as =>
          simp only [hex, Bool.false_eq_true, if_false]
          refine ih (a :: as).dropLast ?_ ?_
          · simp only [List.length_dropLast, List.length_cons] at hp ⊢
            omega
          · intro q hq
            exact h q (hq.trans ( List.dropLast_prefix (a :: as)))

/-- Helper: no existing ancestor at all means the largest valid subset
is absent. -/
lemma largest_valid_subset_eq_none (ex : RustPath → Bool) (p : RustPath)
    (h : ∀ q, q <+: p → ex q = false) :
    largest_valid_subset ex p = none :=
  largest_valid_subset_eq_none_aux ex p.length p le_rfl h

/-- C8: `is_creatable` is true exactly when the largest valid subset of
the path exists and is writable; and when no prefix of the path exists
at all, `largest_valid_subset` returns `none` and `is_creatable` is
false. -/
theorem is_creatable_iff_largest_valid_subset_writable
    (ex w : RustPath → Bool) (p : RustPath) :
    (is_creatable ex w p = true ↔
      ∃ q, largest_valid_subset ex p = some q ∧ w q = true) ∧
    ((∀ q, q <+: p → ex q = false) →
      largest_valid_subset ex p = none ∧ is_creatable ex w p = false) := by
  constructor
  · cases hl : largest_valid_subset ex p <;> simp [is_creatable, hl]
  · intro h
    have hn := largest_valid_subset_eq_none ex p h
    exact ⟨hn, by simp [is_creatable, hn]⟩

/-- Witness for C8: on a filesystem where nothing exists, the path
["a"] has no largest valid subset and is not creatable, even when
everything is writable. -/
theorem is_creatable_iff_largest_valid_subset_writable_witness :
    largest_valid_subset (fun _ => false) ["a"] = none ∧
    is_creatable (fun _ => false) (fun _ => true) ["a"] = false :=
  (is_creatable_iff_largest_valid_subset_writable
    (fun _ => false) (fun _ => true) ["a"]).2 (fun _ _ => rfl)

/-- C9: on an absent optional path-like value, every predicate of the
`Option` impl of `ValidPath` returns false and `largest_valid_subset`
returns `none`, for arbitrary filesystem and permission boundaries
(these are total functions, so no crash is possible). -/
theorem optpath_none_all_false (ex r w x : RustPath → Bool) :
    OptPath.exists_ ex none = false ∧
    OptPath.is_readable r none = false ∧
    OptPath.is_writable w none = false ∧
    OptPath.is_executable x none = false ∧
    OptPath.is_creatable ex w none = false ∧
    OptPath.largest_valid_subset ex none = none :=
  ⟨rfl, rfl, rfl, rfl, rfl, rfl⟩

/-- Helper: every merge call either leaves the receiver untouched or
replaces it by `set_loaded (config self other)` for some fragment
`other` (the shape of every branch of `string` and `filepath`). -/
lemma applyCall_shape (self : TestConfig) (c : MergeCall) :
    applyCall self c = self ∨
      ∃ other, applyCall self c = (self.config other).set_loaded := by
  cases c with
  | config other =>
      refine Or.inr ⟨other, ?_⟩
      simp [applyCall, TestConfig.config, TestConfig.set_loaded]
  | string decode text =>
      cases hd : decode text with
      | error e => exact Or.inl (by simp [applyCall, Dapp.string, hd])
      | ok other =>
          exact Or.inr ⟨other, by
            simp [applyCall, Dapp.string, hd, TestConfig.ops]⟩
  | filepath fs decode p =>
      by_cases hex : fs.pathExists p
      · cases ho : fs.openFile p with
        | error io_error =>
            exact Or.inl (by simp [applyCall, Dapp.filepath, hex, ho])
        | ok contents =>
            cases hd : decode contents with
            | error e =>
                exact Or.inl (by simp [applyCall, Dapp.filepath, hex, ho, hd])
            | ok other =>
                exact Or.inr ⟨other, by
                  simp [applyCall, Dapp.filepath, hex, ho, hd,
                    TestConfig.ops]⟩
      · exact Or.inl (by simp [applyCall, Dapp.filepath, hex])

/-- Helper: a set `my_bool` field survives one merge call. -/
lemma applyCall_preserves_my_bool {self : TestConfig} {b : Bool}
    (h : self.my_bool = some b) (c : MergeCall) :
    (applyCall self c).my_bool = some b := by
  rcases applyCall_shape self c with hs | ⟨other, hs⟩ <;>
    simp [hs, TestConfig.config, TestConfig.set_loaded, h]

/-- Helper: a set `my_string` field survives one merge call. -/
lemma applyCall_preserves_my_string {self : TestConfig} {s : String}
    (h : self.my_string = some s) (c : MergeCall) :
    (applyCall self c).my_string = some s := by
  rcases applyCall_shape self c with hs | ⟨other, hs⟩ <;>
    simp [hs, TestConfig.config, TestConfig.set_loaded, h]

/-- Helper: a set `my_bool` field survives any sequence of merge
calls. -/
lemma runCalls_preserves_my_bool {self : TestConfig} {b : Bool}
    (h : self.my_bool = some b) (calls : List MergeCall) :
    (runCalls self calls).my_bool = some b := by
  induction calls generalizing self with
  | nil => simpa [runCalls] using h
  | cons c cs ih =>
      simpa [runCalls, List.foldl_cons] using
        ih (applyCall_preserves_my_bool h c)

/-- Helper: a set `my_string` field survives any sequence of merge
calls. -/
lemma runCalls_preserves_my_string {self : TestConfig} {s : String}
    (h : self.my_string = some s) (calls : List MergeCall) :
    (runCalls self calls).my_string = some s := by
  induction calls generalizing self with
  | nil => simpa [runCalls] using h
  | cons c cs ih =>
      simpa [runCalls, List.foldl_cons] using
        ih (applyCall_preserves_my_string h c)

/-- C1: first-write-wins priority. Once a field of a configuration
value is set, no later `config`, `string` or `filepath` call (with any
decoder adapters and filesystems) changes it; consequently, for
fragments A (x = 1) and B (x = 2), `new().config(A).config(B)` yields
x = 1 and `new().config(B).config(A)` yields x = 2. -/
theorem first_write_wins :
    (∀ (self : TestConfig) (b : Bool) (calls : List MergeCall),
        self.my_bool = some b →
        (runCalls self calls).my_bool = some b) ∧
    (∀ (self : TestConfig) (s : String) (calls : List MergeCall),
        self.my_string = some s →
        (runCalls self calls).my_string = some s) ∧
    ((TestConfig.new.config fragmentA).config fragmentB).my_string =
      some "1" ∧
    ((TestConfig.new.config fragmentB).config fragmentA).my_string =
      some "2" := by
  refine ⟨?_, ?_, by decide, by decide⟩
  · intro self b calls h
    exact runCalls_preserves_my_bool h calls
  · intro self s calls h
    exact runCalls_preserves_my_string h calls

/-- Witness for C1 at a concrete receiver, fragments, decoder and
filesystem: the `my_string` field set to "1" by fragment A survives a
later `config` with fragment B, a failing `string` call and a
`filepath` call on an absent file. -/
theorem first_write_wins_witness :
    (TestConfig.new.config fragmentA).my_string = some "1" ∧
    (runCalls (TestConfig.new.config fragmentA)
      [MergeCall.config fragmentB,
       MergeCall.string failingDecoder "my_bool: maybe",
       MergeCall.filepath emptyFS failingDecoder ["etc", "app.yaml"]]
      ).my_string = some "1" :=
  ⟨by decide,
   first_write_wins.2.1 (TestConfig.new.config fragmentA) "1"
     [MergeCall.config fragmentB,
      MergeCall.string failingDecoder "my_bool: maybe",
      MergeCall.filepath emptyFS failingDecoder ["etc", "app.yaml"]]
     (by decide)⟩

end Dapp
